import Mathlib

/-!
Verification of the S3 task layer of `awsfabrictasks` (`awsfabrictasks/s3/tasks.py`).

The tasks in `tasks.py` are thin wrappers: they parse arguments, run
existence/overwrite guards, prompt for confirmation, and delegate to the
helper API (`awsfabrictasks.s3.api`: `S3File`, `iter_bucketcontents`,
`compute_localfile_md5sum`) and to the external storage client.  The helper
API module is not part of the sources under verification, so each helper is
modelled from the specification (its doc comment says so and names the
missing piece); everything in `tasks.py` itself is embedded directly.

State is made explicit: a bucket is an association list from key names to
stored objects (byte contents plus integrity tag), the local filesystem is an
association list from paths to byte contents, the interactive confirmation
prompt becomes an explicit boolean input, and `abort(...)` becomes an
`Except.error` carrying the abort message.  Bytes are natural numbers below
256 and the MD5 digest used for the integrity comparison is implemented in
full (RFC 1321) so that digest claims can be evaluated on concrete inputs.
-/

namespace Awsfabrictasks

/-! ## Hexadecimal rendering of byte strings -/

/-- The sixteen lowercase hexadecimal digit characters. -/
def hexdigits : List Char := "0123456789abcdef".data

/-- The hexadecimal digit character for a nibble value. -/
def hexChar (n : Nat) : Char := hexdigits.getD n '0'

/-- Two lowercase hexadecimal characters for one byte, high nibble first. -/
def hexByte (b : Nat) : List Char := [hexChar (b / 16 % 16), hexChar (b % 16)]

/-- Lowercase hexadecimal rendering of a byte string. -/
def bytesToHex (bs : List Nat) : List Char := (bs.map hexByte).flatten

/-! ## MD5 (RFC 1321)

Modelled from the spec: `compute_localfile_md5sum` (helper API, not under the
sources) streams the bytes of a local file through a standard cryptographic
digest — a 128-bit digest rendered as lowercase hexadecimal, matching the
digest the storage service uses for its integrity tags.  The task docstrings
name the digest: md5.  Machine words are naturals reduced modulo `2 ^ 32`. -/

/-- The 32-bit modulus. -/
def M32 : Nat := 4294967296

/-- Bitwise complement on 32-bit words. -/
def compl32 (x : Nat) : Nat := Nat.xor x 4294967295

/-- Left rotation of a 32-bit word by `n` places. -/
def rotl32 (x n : Nat) : Nat :=
  (Nat.lor (Nat.shiftLeft (x % M32) n) (Nat.shiftRight (x % M32) (32 - n))) % M32

/-- The 64 MD5 sine-derived constants `T[i+1]` of RFC 1321. -/
def md5K : List Nat :=
  [0xd76aa478, 0xe8c7b756, 0x242070db, 0xc1bdceee,
   0xf57c0faf, 0x4787c62a, 0xa8304613, 0xfd469501,
   0x698098d8, 0x8b44f7af, 0xffff5bb1, 0x895cd7be,
   0x6b901122, 0xfd987193, 0xa679438e, 0x49b40821,
   0xf61e2562, 0xc040b340, 0x265e5a51, 0xe9b6c7aa,
   0xd62f105d, 0x02441453, 0xd8a1e681, 0xe7d3fbc8,
   0x21e1cde6, 0xc33707d6, 0xf4d50d87, 0x455a14ed,
   0xa9e3e905, 0xfcefa3f8, 0x676f02d9, 0x8d2a4c8a,
   0xfffa3942, 0x8771f681, 0x6d9d6122, 0xfde5380c,
   0xa4beea44, 0x4bdecfa9, 0xf6bb4b60, 0xbebfbc70,
   0x289b7ec6, 0xeaa127fa, 0xd4ef3085, 0x04881d05,
   0xd9d4d039, 0xe6db99e5, 0x1fa27cf8, 0xc4ac5665,
   0xf4292244, 0x432aff97, 0xab9423a7, 0xfc93a039,
   0x655b59c3, 0x8f0ccc92, 0xffeff47d, 0x85845dd1,
   0x6fa87e4f, 0xfe2ce6e0, 0xa3014314, 0x4e0811a1,
   0xf7537e82, 0xbd3af235, 0x2ad7d2bb, 0xeb86d391]

/-- The 64 MD5 per-step rotation amounts. -/
def md5S : List Nat :=
  [7, 12, 17, 22, 7, 12, 17, 22, 7, 12, 17, 22, 7, 12, 17, 22,
   5, 9, 14, 20, 5, 9, 14, 20, 5, 9, 14, 20, 5, 9, 14, 20,
   4, 11, 16, 23, 4, 11, 16, 23, 4, 11, 16, 23, 4, 11, 16, 23,
   6, 10, 15, 21, 6, 10, 15, 21, 6, 10, 15, 21, 6, 10, 15, 21]

/-- The MD5 nonlinear mixing function for step `i` (F, G, H, I by round). -/
def md5Mix (i b c d : Nat) : Nat :=
  if i < 16 then Nat.lor (Nat.land b c) (Nat.land (compl32 b) d)
  else if i < 32 then Nat.lor (Nat.land d b) (Nat.land (compl32 d) c)
  else if i < 48 then Nat.xor b (Nat.xor c d)
  else Nat.xor c (Nat.lor b (compl32 d))

/-- The MD5 message-word index for step `i`. -/
def md5G (i : Nat) : Nat :=
  if i < 16 then i
  else if i < 32 then (5 * i + 1) % 16
  else if i < 48 then (3 * i + 5) % 16
  else (7 * i) % 16

/-- The sixteen little-endian 32-bit words of one 64-byte block. -/
def wordsOf (block : List Nat) : List Nat :=
  (List.range 16).map fun j =>
    block.getD (4 * j) 0 + 256 * block.getD (4 * j + 1) 0 +
      65536 * block.getD (4 * j + 2) 0 + 16777216 * block.getD (4 * j + 3) 0

/-- One MD5 step: rotate the state quadruple, folding in message word and
constant for step `i`. -/
def md5Step (M : List Nat) (st : Nat × Nat × Nat × Nat) (i : Nat) : Nat × Nat × Nat × Nat :=
  let a := st.1
  let b := st.2.1
  let c := st.2.2.1
  let d := st.2.2.2
  let tmp := (a + md5Mix i b c d + md5K.getD i 0 + M.getD (md5G i) 0) % M32
  ((d, (b + rotl32 tmp (md5S.getD i 0)) % M32, b, c) : Nat × Nat × Nat × Nat)

/-- Process one 64-byte block: 64 steps, then add the incoming state. -/
def md5Block (st : Nat × Nat × Nat × Nat) (block : List Nat) : Nat × Nat × Nat × Nat :=
  let r := (List.range 64).foldl (md5Step (wordsOf block)) st
  ((st.1 + r.1) % M32, (st.2.1 + r.2.1) % M32,
   (st.2.2.1 + r.2.2.1) % M32, (st.2.2.2 + r.2.2.2) % M32)

/-- MD5 padding: a `0x80` byte, zeros up to 56 mod 64, then the bit length as
a little-endian 64-bit number. -/
def padMsg (msg : List Nat) : List Nat :=
  let len8 := msg.length * 8 % (2 ^ 64)
  msg ++ 128 :: List.replicate ((119 - msg.length % 64) % 64) 0 ++
    (List.range 8).map fun j => len8 / 256 ^ j % 256

/-- Split a byte string into 64-byte chunks; the fuel argument (one unit per
element consumed) keeps the recursion structural so that concrete digests
reduce inside the kernel. -/
def blocks64Aux : Nat → List Nat → List (List Nat)
  | 0, _ => []
  | _ + 1, [] => []
  | fuel + 1, a :: l => (a :: l).take 64 :: blocks64Aux fuel ((a :: l).drop 64)

/-- Split a byte string into 64-byte chunks. -/
def blocks64 (l : List Nat) : List (List Nat) := blocks64Aux l.length l

/-- The four little-endian bytes of a 32-bit word. -/
def wordLEBytes (w : Nat) : List Nat :=
  [w % 256, w / 256 % 256, w / 65536 % 256, w / 16777216 % 256]

/-- The characters of the MD5 digest of a byte string, as 32 lowercase
hexadecimal characters. -/
def md5hexChars (msg : List Nat) : List Char :=
  let st := (blocks64 (padMsg msg)).foldl md5Block
    (0x67452301, 0xefcdab89, 0x98badcfe, 0x10325476)
  bytesToHex (wordLEBytes st.1 ++ wordLEBytes st.2.1 ++
    wordLEBytes st.2.2.1 ++ wordLEBytes st.2.2.2)

/-- The MD5 digest of a byte string as a 32-character lowercase hexadecimal
string, as `hashlib.md5(...).hexdigest()` renders it. -/
def md5hex (msg : List Nat) : String := String.mk (md5hexChars msg)

/-! ## Data model

A bucket is an association list from key names to stored objects; the local
filesystem is an association list from paths to byte contents.  Both sides of
the S3 connection are passed explicitly where `tasks.py` reaches them through
`S3ConnectionWrapper.get_bucket_using_pattern` and `os.path`. -/

/-- A stored remote object: its byte contents and the integrity tag (etag)
the storage service associates with it. -/
structure S3ObjectRec where
  contents : List Nat
  etag : String
deriving DecidableEq

/-- A bucket: key names mapped to stored objects. -/
abbrev Bucket := List (String × S3ObjectRec)

/-- The local filesystem: paths mapped to byte contents. -/
abbrev LocalFiles := List (String × List Nat)

/-- Lookup in an association list keyed by strings. -/
def assocLookup {α : Type} : List (String × α) → String → Option α
  | [], _ => none
  | (k, v) :: rest, key => if k = key then some v else assocLookup rest key

/-- Insert or replace a binding in an association list keyed by strings. -/
def assocSet {α : Type} (l : List (String × α)) (k : String) (v : α) : List (String × α) :=
  (l.filter fun e => e.1 != k) ++ [(k, v)]

/-- Existence test for a local path (`os.path.exists`). -/
def pathExists (fs : LocalFiles) (p : String) : Bool := (assocLookup fs p).isSome

/-- Modelled from the spec: the integrity tag the storage service produces
for an object — a hash-derived token, the content digest wrapped in quote
characters (which the comparison must strip). -/
def etagOf (c : List Nat) : String := String.mk ('"' :: (md5hexChars c ++ ['"']))

/-- Remove every leading and trailing occurrence of `q`, as the Python string
method `strip` with a one-character argument does. -/
def stripChar (q : Char) (l : List Char) : List Char :=
  (((l.dropWhile fun c => c == q).reverse.dropWhile fun c => c == q)).reverse

/-- Modelled from the spec: the quote normalization applied to the remote
integrity tag before comparison — strip wrapping double quotes, then wrapping
single quotes (helper API `S3File.get_etag`, not under the sources). -/
def stripQuotes (s : String) : String :=
  String.mk (stripChar '\'' (stripChar '"' s.data))

/-- How Python prints a boolean. -/
def pyBool (b : Bool) : String := if b then "True" else "False"

/-- Modelled from the spec: `compute_localfile_md5sum` (helper API, not under
the sources) reads the local file and returns its content digest as lowercase
hexadecimal; it fails with `LocalFileNotFound` if the path is unreadable. -/
def compute_localfile_md5sum (fs : LocalFiles) (localfile : String) : Except String String :=
  match assocLookup fs localfile with
  | none => .error ("LocalFileNotFound: " ++ localfile)
  | some bs => .ok (md5hex bs)

/-- Modelled from the spec: `S3File.etag_matches_localfile` (helper API, not
under the sources) — compare the remote object's quote-stripped integrity tag
with the local file's digest for exact string equality. -/
def etag_matches_localfile (obj : S3ObjectRec) (fs : LocalFiles) (localfile : String) :
    Except String Bool :=
  (compute_localfile_md5sum fs localfile).map fun h => stripQuotes obj.etag == h

/-! ## The tasks of `tasks.py`

Each task returns the text it prints (or the abort message as an
`Except.error`) together with whatever state it may have changed. -/

/-- Embeds `s3_same_file` (tasks.py:176-185): fetch the object metadata
(`head=True`; `RemoteObjectNotFound` when the key is absent, per the spec)
and print whether its integrity tag matches the local file's digest. -/
def s3_same_file (bucket : Bucket) (keyname : String) (fs : LocalFiles)
    (localfile : String) : Except String String :=
  match assocLookup bucket keyname with
  | none => .error ("RemoteObjectNotFound: " ++ keyname)
  | some obj => (etag_matches_localfile obj fs localfile).map pyBool

/-- The message of the `S3FileExistsError` raised on a guarded overwrite;
`s3_createfile` aborts with it. -/
def s3FileExistsMsg (keyname : String) : String := "S3 file already exists: " ++ keyname

/-- Modelled from the spec: `S3File.set_contents_from_string` (helper API,
not under the sources) — fails with `S3FileExistsError` if the key exists and
overwrite was not requested, otherwise stores the contents (the service then
associates the content-digest integrity tag with the new object). -/
def set_contents_from_string (b : Bucket) (keyname : String) (contents : List Nat)
    (overwrite : Bool) : Except String Bucket :=
  if (assocLookup b keyname).isSome && !overwrite then
    .error (s3FileExistsMsg keyname)
  else
    .ok (assocSet b keyname ⟨contents, etagOf contents⟩)

/-- Embeds `s3_createfile` (tasks.py:94-109): delegate to
`set_contents_from_string` and turn `S3FileExistsError` into an abort,
leaving the bucket as it was. -/
def s3_createfile (b : Bucket) (keyname : String) (contents : List Nat)
    (overwrite : Bool) : Except String Unit × Bucket :=
  match set_contents_from_string b keyname contents overwrite with
  | .error e => (.error e, b)
  | .ok b2 => (.ok (), b2)

/-- Modelled from the spec: the CLI boolean parsing helper `parse_bool`
(utils module, not under the sources); on an already-boolean value it is the
identity. -/
def parse_bool (b : Bool) : Bool := b

/-- Modelled from the spec: `S3File.delete` (helper API, not under the
sources) — remove the key from the bucket. -/
def bucketDelete (b : Bucket) (k : String) : Bucket := b.filter fun e => e.1 != k

/-- The outcome of `s3_delete`: whether a confirmation prompt was shown, the
abort-or-success result, and the resulting bucket. -/
structure DeleteResult where
  prompted : Bool
  outcome : Except String Unit
  bucket : Bucket

/-- Embeds `s3_delete` (tasks.py:157-173): unless `noconfirm`, prompt for
confirmation and abort when the user declines; otherwise delete the key.
The user's answer to the prompt is the explicit input `userConfirms`. -/
def s3_delete (b : Bucket) (keyname : String) (noconfirm : Bool)
    (userConfirms : Bool) : DeleteResult :=
  if !(parse_bool noconfirm) then
    if !userConfirms then ⟨true, .error "Aborted", b⟩
    else ⟨true, .ok (), bucketDelete b keyname⟩
  else ⟨false, .ok (), bucketDelete b keyname⟩

/-- Modelled from the spec: `S3File.get_contents_to_filename` (helper API,
not under the sources) — write the remote object's contents to the given
local target path.  The target path is a required argument: the object
handle itself knows only the bucket and the key. -/
def get_contents_to_filename (b : Bucket) (keyname : String) (fs : LocalFiles)
    (localfile : String) : Except String (LocalFiles × String) :=
  match assocLookup b keyname with
  | none => .error ("RemoteObjectNotFound: " ++ keyname)
  | some obj => .ok (assocSet fs localfile obj.contents, localfile)

/-- The runtime error of the call `s3file.get_contents_to_filename()` at
tasks.py:155, which passes no target path although the method requires one. -/
def typeErrorMsg : String :=
  "TypeError: get_contents_to_filename() missing 1 required positional argument"

/-- Embeds `s3_downloadfile` (tasks.py:141-155): abort when the local path
exists and overwrite was not requested; otherwise the code reaches
`print s3file.get_contents_to_filename()` — a call with no target path, so
the download raises a `TypeError` instead of writing the file, and the
local filesystem is returned unchanged on every path. -/
def s3_downloadfile (fs : LocalFiles) (b : Bucket) (keyname : String)
    (localfile : String) (overwrite : Bool) : Except String String × LocalFiles :=
  if pathExists fs localfile && !overwrite then
    (.error ("Local file exists: " ++ localfile), fs)
  else
    (.error typeErrorMsg, fs)

/-- Modelled from the spec: `force_slashend` (utils module, not under the
sources) — append a slash unless the path already ends with one. -/
def force_slashend (p : String) : String :=
  if p.data.getLast? == some '/' then p else p ++ "/"

/-- Modelled from the spec: the external client listing `bucket.list(prefix)`
— the names of the keys under the given prefix. -/
def bucketKeysUnder (b : Bucket) (pfx : String) : List String :=
  (b.map Prod.fst).filter fun n => n.startsWith pfx

/-- Embeds `s3_upload_dir` (tasks.py:188-196): slash-terminate the remote
directory, list the keys under it and print them; the trailing upload loop is
absent from the source, so bucket and local filesystem come back unchanged
(`local_dir` is never used). -/
def s3_upload_dir (b : Bucket) (fs : LocalFiles) (local_dir remote_dir : String) :
    List String × Bucket × LocalFiles :=
  (bucketKeysUnder b (force_slashend remote_dir), b, fs)

/-! ## The listing task `s3_ls`

The listing sees keys through the metadata the external client returns
(`key.__dict__` in the format strings): name, size, last-modified stamp and
mode. -/

/-- Key metadata as the external listing yields it, the fields the format
strings of `s3_ls` read. -/
structure KeyInfo where
  name : String
  size : Nat
  last_modified : String
  mode : String
deriving DecidableEq

/-- Left-justify a string in a field of width `n`, as the Python format
specifier `:<n` does. -/
def padRight (s : String) (n : Nat) : String :=
  s ++ String.mk (List.replicate (n - s.length) ' ')

/-- The line separator the verbose format joins with (`os.linesep`). -/
def linesep : String := "\n"

/-- The header line the compact style prints first. -/
def compactHeader : String :=
  padRight "NAME" 70 ++ " " ++ padRight "SIZE" 10 ++ " " ++
    padRight "LAST MODIFIED" 25 ++ " " ++ "MODE"

/-- The compact format string applied to one key. -/
def compactFormat (k : KeyInfo) : String :=
  padRight k.name 70 ++ " " ++ padRight (toString k.size) 10 ++ " " ++
    padRight k.last_modified 25 ++ " " ++ k.mode

/-- The verbose format string applied to one key. -/
def verboseFormat (k : KeyInfo) : String :=
  "name: " ++ k.name ++ linesep ++ "    size: " ++ toString k.size ++ linesep ++
    "    last_modified: " ++ k.last_modified ++ linesep ++ "    mode: " ++ k.mode

/-- The nameonly format string applied to one key. -/
def nameonlyFormat (k : KeyInfo) : String := k.name

/-- Unix shell style matching of a name against a pattern: `*` matches any
run of characters, `?` any single character, anything else itself.  The fuel
argument (pattern plus name length plus one, every call consuming one unit
from pattern or name) keeps the recursion structural. -/
def globMatchAux : Nat → List Char → List Char → Bool
  | 0, _, _ => false
  | _ + 1, [], [] => true
  | _ + 1, [], _ :: _ => false
  | fuel + 1, '*' :: ps, [] => globMatchAux fuel ps []
  | fuel + 1, '*' :: ps, c :: cs =>
      globMatchAux fuel ps (c :: cs) || globMatchAux fuel ('*' :: ps) cs
  | _ + 1, _ :: _, [] => false
  | fuel + 1, p :: ps, c :: cs => (p == '?' || p == c) && globMatchAux fuel ps cs

/-- Modelled from the spec: the Unix shell style pattern match used for key
filtering (`fnmatch`, case-sensitive, against the entire key name); the
character-class syntax is not modelled. -/
def fnmatch (name pat : String) : Bool :=
  globMatchAux (pat.data.length + name.data.length + 1) pat.data name.data

/-- Modelled from the spec: the external client listing
`bucket.list(prefix, delimiter)` — the keys whose name starts with the given
prefix.  The delimiter is passed through to the service as the source passes
it; its rollup grouping stays with the external service and is not
modelled. -/
def bucketListKeys (keys : List KeyInfo) (pfx : String) (delimiter : String) :
    List KeyInfo :=
  keys.filter fun k => k.name.startsWith pfx

/-- Modelled from the spec: the helper `iter_bucketcontents` (helper API, not
under the sources) — enumerate the keys under the prefix, keep those whose
name matches the glob pattern when one is given, and yield the formatter
applied to each kept key. -/
def iter_bucketcontents (keys : List KeyInfo) (pfx : String)
    (matchPat : Option String) (delimiter : String)
    (formatter : KeyInfo → String) : List String :=
  ((bucketListKeys keys pfx delimiter).filter fun k =>
    match matchPat with
    | none => true
    | some pat => fnmatch k.name pat).map formatter

/-- Python truthiness of the optional `search` argument: absent and the empty
string are falsy. -/
def searchTruthy : Option String → Bool
  | none => false
  | some s => s != ""

/-- The pattern the listing filters with: a truthy `search` replaces the
given match pattern by `*search*` (tasks.py:70-71), otherwise the match
pattern is used as given. -/
def effectiveMatch (search matchPat : Option String) : Option String :=
  if searchTruthy search then some ("*" ++ search.getD "" ++ "*") else matchPat

/-- The valid display styles. -/
def styles : List String := ["compact", "verbose", "nameonly"]

/-- The format string `s3_ls` selects for a valid style. -/
def lsFormatter (style : String) : KeyInfo → String :=
  if style = "compact" then compactFormat
  else if style = "verbose" then verboseFormat
  else nameonlyFormat

/-- The header line the compact style prints before the items; the other
styles print none. -/
def lsHeader (style : String) : List String :=
  if style = "compact" then [compactHeader] else []

/-- Embeds `s3_ls` (tasks.py:17-76): abort on an invalid style, pick the
style's format string (the compact style prints its header line first),
substitute a truthy `search` for the match pattern, and print one formatted
line per listed key. -/
def s3_ls (keys : List KeyInfo) (pfx : String) (search : Option String)
    (matchPat : Option String) (style : String) (delimiter : String) :
    Except String (List String) :=
  if !(styles.contains style) then
    .error ("Invalid style: " ++ style ++ ". Use one of " ++ String.intercalate "," styles)
  else
    .ok (lsHeader style ++ iter_bucketcontents keys pfx (effectiveMatch search matchPat)
      delimiter (lsFormatter style))

/-! ## Concrete inputs used by witnesses -/

/-- The ASCII bytes of the string hello. -/
def helloBytes : List Nat := [104, 101, 108, 108, 111]

/-- The ASCII bytes of the string hullo, differing from hello in one byte. -/
def hulloBytes : List Nat := [104, 117, 108, 108, 111]

/-! ## Helper lemmas -/

set_option maxRecDepth 8000 in
/-- Sanity check of the MD5 embedding against the RFC 1321 test suite: the
digest of the empty message. -/
theorem md5hex_nil : md5hex [] = "d41d8cd98f00b204e9800998ecf8427e" := by decide

set_option maxRecDepth 8000 in
/-- Sanity check of the MD5 embedding: the digest of the ASCII bytes of
hello, as `hashlib.md5` renders it. -/
theorem md5hex_hello : md5hex helloBytes = "5d41402abc4b2a76b9719d911017c592" := by decide

/-- Every character `hexChar` produces is a hexadecimal digit. -/
theorem hexChar_mem (n : Nat) : hexChar n ∈ hexdigits := by
  unfold hexChar
  rcases Nat.lt_or_ge n 16 with h | h
  · interval_cases n <;> decide
  · rw [List.getD_eq_default]
    · decide
    · simpa [hexdigits] using h

/-- Every character of a hexadecimal rendering is a hexadecimal digit. -/
theorem bytesToHex_mem {c : Char} {bs : List Nat} (h : c ∈ bytesToHex bs) :
    c ∈ hexdigits := by
  unfold bytesToHex at h
  rw [List.mem_flatten] at h
  obtain ⟨l, hl, hcl⟩ := h
  rw [List.mem_map] at hl
  obtain ⟨b, _, rfl⟩ := hl
  simp only [hexByte, List.mem_cons, List.not_mem_nil, or_false] at hcl
  rcases hcl with rfl | rfl
  · exact hexChar_mem _
  · exact hexChar_mem _

/-- Every character of an MD5 digest is a hexadecimal digit. -/
theorem md5hexChars_mem {c : Char} {msg : List Nat} (h : c ∈ md5hexChars msg) :
    c ∈ hexdigits := by
  simp only [md5hexChars] at h
  exact bytesToHex_mem h

/-- Dropping a leading run of `q` from a list free of `q` drops nothing. -/
theorem dropWhile_beq_eq_self {q : Char} {l : List Char} (h : ∀ c ∈ l, c ≠ q) :
    (l.dropWhile fun c => c == q) = l := by
  cases l with
  | nil => rfl
  | cons a t =>
      have ha : (a == q) = false := beq_eq_false_iff_ne.mpr (h a (List.mem_cons_self a t))
      simp [List.dropWhile_cons, ha]

/-- Stripping a character absent from a list leaves the list unchanged. -/
theorem stripChar_eq_self {q : Char} {l : List Char} (h : ∀ c ∈ l, c ≠ q) :
    stripChar q l = l := by
  unfold stripChar
  rw [dropWhile_beq_eq_self h,
    dropWhile_beq_eq_self fun c hc => h c (List.mem_reverse.mp hc),
    List.reverse_reverse]

/-- Stripping a character from a list wrapped in exactly one occurrence of it
on each side recovers the list. -/
theorem stripChar_wrap {q : Char} {l : List Char} (h : ∀ c ∈ l, c ≠ q) :
    stripChar q (q :: (l ++ [q])) = l := by
  unfold stripChar
  rw [List.dropWhile_cons]
  simp only [beq_self_eq_true, if_true]
  cases l with
  | nil => simp [List.dropWhile]
  | cons a t =>
      have ha : (a == q) = false :=
        beq_eq_false_iff_ne.mpr (h a (List.mem_cons_self a t))
      have hrest : ∀ c ∈ t.reverse ++ [a], c ≠ q := by
        intro c hc
        rcases List.mem_append.mp hc with hc | hc
        · exact h c (List.mem_cons_of_mem a (List.mem_reverse.mp hc))
        · rw [List.mem_singleton.mp hc]
          exact h a (List.mem_cons_self a t)
      rw [List.cons_append, List.dropWhile_cons, ha]
      simp only [Bool.false_eq_true, if_false]
      rw [List.reverse_cons, List.reverse_append, List.reverse_cons,
        List.reverse_nil, List.nil_append]
      show (List.dropWhile (fun c => c == q) (q :: (t.reverse ++ [a]))).reverse = a :: t
      rw [List.dropWhile_cons]
      simp only [beq_self_eq_true, if_true]
      rw [dropWhile_beq_eq_self hrest, List.reverse_append, List.reverse_reverse]
      rfl

/-- Quote normalization undoes the quote wrapping of a service integrity
tag: stripping the quotes from `etagOf c` yields the bare digest. -/
theorem stripQuotes_etagOf (c : List Nat) : stripQuotes (etagOf c) = md5hex c := by
  have hdq : ∀ ch ∈ hexdigits, ch ≠ '"' := by decide
  have hsq : ∀ ch ∈ hexdigits, ch ≠ '\'' := by decide
  show String.mk (stripChar '\'' (stripChar '"' ('"' :: (md5hexChars c ++ ['"'])))) =
    String.mk (md5hexChars c)
  rw [stripChar_wrap fun ch hc => hdq ch (md5hexChars_mem hc),
    stripChar_eq_self fun ch hc => hsq ch (md5hexChars_mem hc)]

/-- Looking up a key in an association list from which every binding of that
key was filtered out finds nothing. -/
theorem assocLookup_filter_ne {α : Type} (l : List (String × α)) (k : String) :
    assocLookup (l.filter fun e => e.1 != k) k = none := by
  induction l with
  | nil => rfl
  | cons e t ih =>
      obtain ⟨ek, ev⟩ := e
      rw [List.filter_cons]
      by_cases he : ek = k
      · rw [if_neg (by simp [he])]
        exact ih
      · rw [if_pos (by simp [he])]
        show assocLookup ((ek, ev) :: t.filter fun e => e.1 != k) k = none
        unfold assocLookup
        rw [if_neg he]
        exact ih

/-- A pattern of two stars matches every name, given enough fuel. -/
theorem globMatchAux_dstar (l : List Char) :
    ∀ fuel, l.length + 3 ≤ fuel → globMatchAux fuel ['*', '*'] l = true := by
  induction l with
  | nil =>
      intro fuel h
      obtain ⟨f, rfl⟩ : ∃ f, fuel = f + 3 := ⟨fuel - 3, by omega⟩
      rfl
  | cons c cs ih =>
      intro fuel h
      obtain ⟨f, rfl⟩ : ∃ f, fuel = f + 1 := ⟨fuel - 1, by omega⟩
      have hcs : globMatchAux f ['*', '*'] cs = true := by
        refine ih f ?_
        simp only [List.length_cons] at h
        omega
      rw [show globMatchAux (f + 1) ['*', '*'] (c :: cs) =
        (globMatchAux f ['*'] (c :: cs) || globMatchAux f ['*', '*'] cs) from rfl]
      rw [hcs]
      exact Bool.or_true _

/-- The pattern with two stars and nothing else matches every name. -/
theorem fnmatch_dstar (n : String) : fnmatch n "**" = true := by
  unfold fnmatch
  have hd : "**".data = ['*', '*'] := rfl
  rw [hd]
  exact globMatchAux_dstar n.data _ (by simp; omega)

/-- Filtering the listing with the all-matching double-star pattern keeps
exactly what no filtering keeps. -/
theorem iter_bucketcontents_dstar (keys : List KeyInfo) (pfx delimiter : String)
    (formatter : KeyInfo → String) :
    iter_bucketcontents keys pfx (some "**") delimiter formatter =
      iter_bucketcontents keys pfx none delimiter formatter := by
  unfold iter_bucketcontents
  have hl : ((bucketListKeys keys pfx delimiter).filter fun k => fnmatch k.name "**") =
      bucketListKeys keys pfx delimiter :=
    List.filter_eq_self.mpr fun a _ => fnmatch_dstar a.name
  have hr : ((bucketListKeys keys pfx delimiter).filter fun _ => true) =
      bucketListKeys keys pfx delimiter :=
    List.filter_eq_self.mpr fun _ _ => rfl
  show ((bucketListKeys keys pfx delimiter).filter fun k => fnmatch k.name "**").map
      formatter =
    ((bucketListKeys keys pfx delimiter).filter fun _ => true).map formatter
  rw [hl, hr]

/-! ## Claim theorems -/

/-- C1: for a remote object whose integrity tag is the service digest of its
contents, `s3_same_file` prints True when the local file's bytes equal the
object's bytes, and prints False when the two digests differ — the
hash-collision caveat of the claim is the digest-inequality hypothesis of the
second conjunct. -/
theorem s3_same_file_matches_iff (b : Bucket) (keyname : String) (fs : LocalFiles)
    (localfile : String) (obj : S3ObjectRec) (F : List Nat)
    (hobj : assocLookup b keyname = some obj)
    (hetag : obj.etag = etagOf obj.contents)
    (hF : assocLookup fs localfile = some F) :
    (F = obj.contents → s3_same_file b keyname fs localfile = .ok "True") ∧
    (md5hex F ≠ md5hex obj.contents → s3_same_file b keyname fs localfile = .ok "False") := by
  unfold s3_same_file etag_matches_localfile compute_localfile_md5sum
  rw [hobj, hF]
  show (F = obj.contents →
      Except.map pyBool (Except.map (fun h => stripQuotes obj.etag == h)
        (Except.ok (md5hex F))) = Except.ok "True") ∧
    (md5hex F ≠ md5hex obj.contents →
      Except.map pyBool (Except.map (fun h => stripQuotes obj.etag == h)
        (Except.ok (md5hex F))) = Except.ok "False")
  rw [hetag]
  simp only [Except.map]
  rw [stripQuotes_etagOf]
  constructor
  · intro hEq
    rw [hEq, beq_self_eq_true]
    rfl
  · intro hNe
    have hb : (md5hex obj.contents == md5hex F) = false :=
      beq_eq_false_iff_ne.mpr fun hh => hNe hh.symm
    rw [hb]
    rfl

set_option maxRecDepth 10000 in
/-- Witness for C1 at concrete inputs: a remote hello object against a local
hello file prints True, and against a local hullo file prints False. -/
theorem s3_same_file_matches_iff_witness :
    s3_same_file [("k", ⟨helloBytes, etagOf helloBytes⟩)] "k" [("f", helloBytes)] "f" =
        .ok "True" ∧
    s3_same_file [("k", ⟨helloBytes, etagOf helloBytes⟩)] "k" [("g", hulloBytes)] "g" =
        .ok "False" :=
  ⟨(s3_same_file_matches_iff [("k", ⟨helloBytes, etagOf helloBytes⟩)] "k"
      [("f", helloBytes)] "f" ⟨helloBytes, etagOf helloBytes⟩ helloBytes
      (by decide) rfl (by decide)).1 rfl,
   (s3_same_file_matches_iff [("k", ⟨helloBytes, etagOf helloBytes⟩)] "k"
      [("g", hulloBytes)] "g" ⟨helloBytes, etagOf helloBytes⟩ hulloBytes
      (by decide) rfl (by decide)).2 (by decide)⟩

set_option maxRecDepth 10000 in
/-- C2 counterexample: against a remote object whose integrity tag is the
31-character digest the claim quotes, `s3_same_file` on a local file with
bytes hello prints False, not True — the md5 digest of hello has 32
characters and ends in 2. -/
theorem s3_same_file_hello_spec_digest :
    s3_same_file [("k", ⟨helloBytes, "5d41402abc4b2a76b9719d911017c59"⟩)] "k"
      [("f", helloBytes)] "f" = .ok "False" := by rfl

set_option maxRecDepth 10000 in
/-- C2 amended: with the full 32-character digest of hello as the integrity
tag, `s3_same_file` on a local file with bytes hello prints True. -/
theorem s3_same_file_hello_correct_digest :
    s3_same_file [("k", ⟨helloBytes, "5d41402abc4b2a76b9719d911017c592"⟩)] "k"
      [("f", helloBytes)] "f" = .ok "True" := by rfl

/-- C3: `s3_downloadfile` never writes anything — on every invocation the
local filesystem comes back unchanged and the task aborts, because the call
at tasks.py:155 passes no target path to `get_contents_to_filename` (the
method the spec models requires one), so the remote contents are never
written to the given local path. -/
theorem s3_downloadfile_never_writes (fs : LocalFiles) (b : Bucket)
    (keyname localfile : String) (overwrite : Bool) :
    (s3_downloadfile fs b keyname localfile overwrite).2 = fs ∧
    (s3_downloadfile fs b keyname localfile overwrite).1.isOk = false := by
  unfold s3_downloadfile
  split
  · exact ⟨rfl, rfl⟩
  · exact ⟨rfl, rfl⟩

/-- C4: when the local path exists and overwrite was not requested,
`s3_downloadfile` aborts with the local-file-exists message and the local
filesystem is unchanged. -/
theorem s3_downloadfile_guard (fs : LocalFiles) (b : Bucket)
    (keyname localfile : String) (overwrite : Bool)
    (hx : pathExists fs localfile = true) (hov : overwrite = false) :
    s3_downloadfile fs b keyname localfile overwrite =
      (.error ("Local file exists: " ++ localfile), fs) := by
  unfold s3_downloadfile
  rw [hx, hov]
  rfl

/-- Witness for C4 at a concrete input: downloading onto an existing local
file without overwrite aborts and leaves the filesystem as it was. -/
theorem s3_downloadfile_guard_witness :
    s3_downloadfile [("f.txt", helloBytes)] [] "k" "f.txt" false =
      (.error ("Local file exists: " ++ "f.txt"), [("f.txt", helloBytes)]) :=
  s3_downloadfile_guard _ _ _ _ _ (by decide) rfl

/-- C5: listing with a search string produces exactly the output of listing
with the match pattern that wraps the search string in stars and no search
(the other arguments, the match pattern among them, at their defaults). -/
theorem s3_ls_search_matches_star (keys : List KeyInfo)
    (pfx style delimiter foo : String) :
    s3_ls keys pfx (some foo) none style delimiter =
      s3_ls keys pfx none (some ("*" ++ foo ++ "*")) style delimiter := by
  by_cases hfoo : foo = ""
  · subst hfoo
    unfold s3_ls
    split
    · rfl
    · have h1 : effectiveMatch (some "") none = none := by decide
      have h2 : effectiveMatch none (some ("*" ++ "" ++ "*")) = some "**" := by decide
      rw [h1, h2, iter_bucketcontents_dstar]
  · unfold s3_ls
    split
    · rfl
    · have h1 : effectiveMatch (some foo) none = some ("*" ++ foo ++ "*") := by
        unfold effectiveMatch searchTruthy
        rw [if_pos (by simpa using hfoo)]
        rfl
      have h2 : effectiveMatch none (some ("*" ++ foo ++ "*")) = some ("*" ++ foo ++ "*") :=
        rfl
      rw [h1, h2]

/-- C6: creating an object under an existing key without overwrite aborts
with the file-exists message and leaves the bucket unmodified. -/
theorem s3_createfile_guard (b : Bucket) (keyname : String) (contents : List Nat)
    (hx : (assocLookup b keyname).isSome = true) :
    s3_createfile b keyname contents false = (.error (s3FileExistsMsg keyname), b) := by
  unfold s3_createfile set_contents_from_string
  rw [hx]
  rfl

/-- Witness for C6 at a concrete input: re-creating the existing key aborts
and the bucket is returned unchanged. -/
theorem s3_createfile_guard_witness :
    s3_createfile [("k", ⟨helloBytes, "t"⟩)] "k" hulloBytes false =
      (.error (s3FileExistsMsg "k"), [("k", ⟨helloBytes, "t"⟩)]) :=
  s3_createfile_guard _ _ _ (by decide)

/-- C7: without `noconfirm` the deletion prompts, and a declined prompt
aborts with the bucket untouched; with `noconfirm` no prompt is shown and
the key is gone from the resulting bucket. -/
theorem s3_delete_confirm_semantics (b : Bucket) (keyname : String)
    (noconfirm userConfirms : Bool) :
    (noconfirm = false →
      (s3_delete b keyname noconfirm userConfirms).prompted = true ∧
      (userConfirms = false →
        (s3_delete b keyname noconfirm userConfirms).outcome = .error "Aborted" ∧
        (s3_delete b keyname noconfirm userConfirms).bucket = b)) ∧
    (noconfirm = true →
      (s3_delete b keyname noconfirm userConfirms).prompted = false ∧
      (s3_delete b keyname noconfirm userConfirms).outcome = .ok () ∧
      assocLookup (s3_delete b keyname noconfirm userConfirms).bucket keyname = none) := by
  constructor
  · rintro rfl
    cases userConfirms
    · exact ⟨rfl, fun _ => ⟨rfl, rfl⟩⟩
    · exact ⟨rfl, fun h => nomatch h⟩
  · rintro rfl
    exact ⟨rfl, rfl, assocLookup_filter_ne b keyname⟩

/-- Witness for C7 at concrete inputs: a declined prompt aborts with the
bucket intact, and the no-confirm invocation deletes without prompting. -/
theorem s3_delete_confirm_semantics_witness :
    (s3_delete [("k", ⟨helloBytes, "t"⟩)] "k" false false).prompted = true ∧
    (s3_delete [("k", ⟨helloBytes, "t"⟩)] "k" false false).outcome = .error "Aborted" ∧
    (s3_delete [("k", ⟨helloBytes, "t"⟩)] "k" false false).bucket =
      [("k", ⟨helloBytes, "t"⟩)] ∧
    (s3_delete [("k", ⟨helloBytes, "t"⟩)] "k" true false).prompted = false ∧
    assocLookup (s3_delete [("k", ⟨helloBytes, "t"⟩)] "k" true false).bucket "k" = none := by
  have h1 := (s3_delete_confirm_semantics [("k", ⟨helloBytes, "t"⟩)] "k" false false).1 rfl
  have h2 := (s3_delete_confirm_semantics [("k", ⟨helloBytes, "t"⟩)] "k" true false).2 rfl
  exact ⟨h1.1, (h1.2 rfl).1, (h1.2 rfl).2, h2.1, h2.2.2⟩

/-- C8: `s3_upload_dir` only lists — the bucket and the local filesystem come
back unchanged, the printed names are exactly the keys under the
slash-terminated remote directory, and that prefix does end in a slash. -/
theorem s3_upload_dir_lists_only (b : Bucket) (fs : LocalFiles)
    (local_dir remote_dir : String) :
    (s3_upload_dir b fs local_dir remote_dir).2.1 = b ∧
    (s3_upload_dir b fs local_dir remote_dir).2.2 = fs ∧
    (s3_upload_dir b fs local_dir remote_dir).1 =
      bucketKeysUnder b (force_slashend remote_dir) ∧
    (force_slashend remote_dir).data.getLast? = some '/' := by
  refine ⟨rfl, rfl, rfl, ?_⟩
  unfold force_slashend
  split
  · next h => exact eq_of_beq h
  · show (remote_dir ++ "/").data.getLast? = some '/'
    rw [String.data_append]
    exact List.getLast?_concat _

/-- C9: the digest computation is a function of the file's bytes alone — any
two reads that see the same bytes produce the same digest, namely the md5
hex digest of those bytes. -/
theorem compute_localfile_md5sum_pure (fs1 fs2 : LocalFiles) (p1 p2 : String)
    (bs : List Nat) (h1 : assocLookup fs1 p1 = some bs)
    (h2 : assocLookup fs2 p2 = some bs) :
    compute_localfile_md5sum fs1 p1 = compute_localfile_md5sum fs2 p2 ∧
    compute_localfile_md5sum fs1 p1 = .ok (md5hex bs) := by
  unfold compute_localfile_md5sum
  rw [h1, h2]
  exact ⟨rfl, rfl⟩

/-- Witness for C9 at a concrete input: two files holding the hello bytes
under different paths digest identically. -/
theorem compute_localfile_md5sum_pure_witness :
    compute_localfile_md5sum [("a", helloBytes)] "a" =
      compute_localfile_md5sum [("b", helloBytes)] "b" :=
  (compute_localfile_md5sum_pure _ _ _ _ helloBytes (by decide) (by decide)).1

/-- C10: an empty search string is falsy, so the listing treats it exactly as
an absent search and uses the given match pattern unchanged. -/
theorem s3_ls_empty_search (keys : List KeyInfo) (pfx : String)
    (matchPat : Option String) (style delimiter : String) :
    s3_ls keys pfx (some "") matchPat style delimiter =
      s3_ls keys pfx none matchPat style delimiter := by
  unfold s3_ls
  have h : effectiveMatch (some "") matchPat = effectiveMatch none matchPat := rfl
  rw [h]

end Awsfabrictasks
